import Mathlib

/-!
Preach-Point-Login: PayFast signing / webhook verification, shallow embedding.

This file embeds the payment-request signing and webhook-verification core of
the repository: the canonical parameter-string encoders (the repository contains
several incompatible rewrites), the MD5 signature, and the two versions of the
subscribe / ITN (Instant Transaction Notification) request handlers found in
`server.js`.  Handlers are embedded as pure functions from the request payload,
the ambient configuration, an oracle giving the outcome of each external call
(remote validation, database writes, auth calls), and the persistent state, to
a response plus the new state plus a trace of the external write effects.
-/

set_option maxRecDepth 100000

set_option maxHeartbeats 4000000

namespace PreachPoint

/-- A JavaScript value as it can appear in the field maps passed to the
builders: a string, a number (the repository only ever uses integer literals
such as `subscription_type: 1`), or `null`.  An absent key plays the role of
`undefined`. -/
inductive JsValue where
  | vStr : String → JsValue
  | vNum : Int → JsValue
  | vNull : JsValue
deriving DecidableEq, Repr

/-- JS `String(v)` coercion for the values we model.  The builders only apply
it after ruling out `null`/`undefined`, so the `vNull` case is unreachable
there; JS would give `"null"`. -/
def JsValue.toJsString : JsValue → String
  | .vStr s => s
  | .vNum n => toString n
  | .vNull => "null"

/-- JS truthiness of a modelled value (`"" `, `0` and `null` are falsy). -/
def JsValue.truthy : JsValue → Bool
  | .vStr s => s ≠ ""
  | .vNum n => n ≠ 0
  | .vNull => false

/-- A JS object used as a field map: an association list in insertion order
(object keys are unique; lookup takes the first match). -/
abbrev Fields : Type := List (String × JsValue)

/-- `fields[k]`: `none` models `undefined`. -/
def lookupField (fields : Fields) (k : String) : Option JsValue :=
  List.lookup k fields

/-- The whitespace class removed by JS `String.prototype.trim` (restricted to
the characters that can occur in this system's ASCII payloads, plus NBSP). -/
def isJsSpace (c : Char) : Bool :=
  c.toNat = 32 ∨ c.toNat = 9 ∨ c.toNat = 10 ∨ c.toNat = 11 ∨ c.toNat = 12 ∨
  c.toNat = 13 ∨ c.toNat = 160

/-- JS `s.trim()`. -/
def jsTrim (s : String) : String :=
  ⟨(s.data.dropWhile isJsSpace).reverse.dropWhile isJsSpace |>.reverse⟩

/-- ASCII-uppercase a string (JS `toUpperCase` on this system's ASCII
status tokens), at the character-data level so the kernel can evaluate it. -/
def jsToUpper (s : String) : String :=
  ⟨s.data.map Char.toUpper⟩

/-- ASCII-lowercase a string (JS `toLowerCase`). -/
def jsToLower (s : String) : String :=
  ⟨s.data.map Char.toLower⟩

/-- Does `s` start with `pre`? -/
def strStartsWith (s pre : String) : Bool :=
  pre.data.isPrefixOf s.data

/-- Split on a single-character separator, JS `s.split(sep)` semantics. -/
def splitAux (sep : Char) : List Char → List Char → List String
  | [], cur => [⟨cur.reverse⟩]
  | ch :: rest, cur =>
      if ch = sep then ⟨cur.reverse⟩ :: splitAux sep rest []
      else splitAux sep rest (ch :: cur)

/-- JS `s.split(sep)` for a one-character separator. -/
def jsSplit (s : String) (sep : Char) : List String :=
  splitAux sep s.data []

/-- Uppercase hexadecimal digit for a value `< 16`. -/
def hexDigitUpper (n : Nat) : Char :=
  if n < 10 then Char.ofNat (48 + n) else Char.ofNat (65 + (n - 10))

/-- Lowercase hexadecimal digit for a value `< 16`. -/
def hexDigitLower (n : Nat) : Char :=
  if n < 10 then Char.ofNat (48 + n) else Char.ofNat (97 + (n - 10))

/-- Two-digit uppercase hex of a byte. -/
def byteHexUpper (b : Nat) : String :=
  ⟨[hexDigitUpper (b / 16 % 16), hexDigitUpper (b % 16)]⟩

/-- Two-digit lowercase hex of a byte. -/
def byteHexLower (b : Nat) : String :=
  ⟨[hexDigitLower (b / 16 % 16), hexDigitLower (b % 16)]⟩

/-- UTF-8 encoding of a single character, as a list of byte values. -/
def utf8Bytes (c : Char) : List Nat :=
  let n := c.toNat
  if n < 0x80 then [n]
  else if n < 0x800 then
    [0xC0 ||| (n >>> 6), 0x80 ||| (n &&& 0x3F)]
  else if n < 0x10000 then
    [0xE0 ||| (n >>> 12), 0x80 ||| ((n >>> 6) &&& 0x3F), 0x80 ||| (n &&& 0x3F)]
  else
    [0xF0 ||| (n >>> 18), 0x80 ||| ((n >>> 12) &&& 0x3F),
     0x80 ||| ((n >>> 6) &&& 0x3F), 0x80 ||| (n &&& 0x3F)]

/-- UTF-8 bytes of a string. -/
def strBytes (s : String) : List Nat :=
  (s.data.map utf8Bytes).flatten

/-- `%XX` percent-encoding of one character's UTF-8 bytes, uppercase hex
(the form `encodeURIComponent` emits). -/
def percentEncodeChar (c : Char) : String :=
  String.join ((utf8Bytes c).map (fun b => "%" ++ byteHexUpper b))

/-- The characters JS `encodeURIComponent` leaves unencoded: ASCII
alphanumerics and `- _ . ! ~ * ' ( )` (codes 45 95 46 33 126 42 39 40 41). -/
def uriUnreserved (c : Char) : Bool :=
  c.isAlpha ∨ c.isDigit ∨
  c.toNat = 45 ∨ c.toNat = 95 ∨ c.toNat = 46 ∨ c.toNat = 33 ∨
  c.toNat = 126 ∨ c.toNat = 42 ∨ c.toNat = 39 ∨ c.toNat = 40 ∨ c.toNat = 41

/-- One character of `encodeURIComponent(str).replace(/%20/g, '+')`
(`encodeFormComponent` in `buildPfParamString.mjs`, `pfEncode` in the
insertion-order rewrite).  The per-character form is equivalent to the
source's global replace: every `%` that `encodeURIComponent` emits starts an
escape, and `%20` is exactly the escape of a space, so the regex rewrites
spaces and nothing else.  (`pfEncode` additionally uppercases any lowercase
hex escape, a no-op since `encodeURIComponent` already emits uppercase.) -/
def encodeFormComponentChar (c : Char) : String :=
  if c = ' ' then "+"
  else if uriUnreserved c then String.singleton c
  else percentEncodeChar c

/-- `encodeFormComponent` of `buildPfParamString.mjs` (also `pfEncode` of the
insertion-order rewrite): form-style encoding, spaces to `+`, other encoded
characters percent-encoded with uppercase hex. -/
def encodeFormComponent (s : String) : String :=
  String.join (s.data.map encodeFormComponentChar)

/-- `encodeRFC3986` of the second `server.js` version:
`encodeURIComponent` plus escaping of `! ' ( ) *`; spaces stay `%20`
(no `+` substitution). -/
def encodeRFC3986 (s : String) : String :=
  String.join (s.data.map (fun c =>
    if c.isAlpha ∨ c.isDigit ∨ c.toNat = 45 ∨ c.toNat = 95 ∨
       c.toNat = 46 ∨ c.toNat = 126 then String.singleton c
    else percentEncodeChar c))

/-- `enc` of the first `part_000` rewrite and of `serverBU.js`'s
`payfastSignature.mjs`: trim, then spaces to `+`, nothing percent-encoded. -/
def encSpacePlus (s : String) : String :=
  ⟨(jsTrim s).data.map (fun c => if c = ' ' then '+' else c)⟩

/-- Join parameter parts with `&` (the builders' `parts.join('&')`). -/
def joinAmp (parts : List String) : String :=
  String.intercalate "&" parts

/-! ## The canonical builders -/

/-- `PF_FIELD_ORDER` of `src/buildPfParamString.mjs` (the module `server.js`
imports): the PayFast attribute order. -/
def PF_FIELD_ORDER : List String :=
  ["merchant_id", "merchant_key", "return_url", "cancel_url", "notify_url",
   "name_first", "name_last", "email_address", "cell_number",
   "m_payment_id", "amount", "item_name", "item_description",
   "custom_int1", "custom_int2", "custom_int3", "custom_int4", "custom_int5",
   "custom_str1", "custom_str2", "custom_str3", "custom_str4", "custom_str5",
   "email_confirmation", "confirmation_address", "payment_method",
   "subscription_type", "billing_date", "recurring_amount", "frequency",
   "cycles"]

/-- One canonical pair of `buildPfParamString.mjs`: skip `undefined`/`null`,
coerce to string, trim, skip if empty, else encode with
`encodeFormComponent`. -/
def mjsPair (fields : Fields) (k : String) : Option (String × String) :=
  match lookupField fields k with
  | none => none
  | some .vNull => none
  | some v =>
      let s := jsTrim v.toJsString
      if s = "" then none else some (k, encodeFormComponent s)

/-- The ordered key/encoded-value pairs emitted by
`buildPfParamString.mjs`'s loop over `PF_FIELD_ORDER`. -/
def canonicalPairs (fields : Fields) : List (String × String) :=
  PF_FIELD_ORDER.filterMap (mjsPair fields)

/-- The optional trailing passphrase pair of `buildPfParamString.mjs`:
pushed only when `passphrase && String(passphrase).trim()` is truthy. -/
def passphrasePair (passphrase : String) : Option (String × String) :=
  if passphrase ≠ "" ∧ jsTrim passphrase ≠ "" then
    some ("passphrase", encodeFormComponent (jsTrim passphrase))
  else none

/-- All pairs of `buildPfParamString.mjs`, passphrase last. -/
def mjsAllPairs (fields : Fields) (passphrase : String) : List (String × String) :=
  canonicalPairs fields ++ (passphrasePair passphrase).toList

/-- `buildPfParamString` of `src/buildPfParamString.mjs`. -/
def buildPfParamString (fields : Fields) (passphrase : String := "") : String :=
  joinAmp ((mjsAllPairs fields passphrase).map (fun p => p.1 ++ "=" ++ p.2))

/-- `PF_FIELD_ORDER` of the first `part_000` rewrite (a different order:
`m_payment_id`/`amount`/`item_name` directly after the URLs, then
`payment_method`, recurring fields, confirmations, customs). -/
def PF_FIELD_ORDER_p0 : List String :=
  ["merchant_id", "merchant_key",
   "return_url", "cancel_url", "notify_url",
   "m_payment_id", "amount", "item_name",
   "payment_method",
   "subscription_type", "billing_date", "recurring_amount", "frequency",
   "cycles",
   "email_confirmation", "confirmation_address",
   "custom_int1", "custom_int2", "custom_int3", "custom_int4", "custom_int5",
   "custom_str1", "custom_str2", "custom_str3", "custom_str4", "custom_str5"]

/-- One pair of the first `part_000` rewrite: same skip/trim rules as the
`.mjs` module but values encoded with `enc` (spaces to `+` only). -/
def p0Pair (fields : Fields) (k : String) : Option (String × String) :=
  match lookupField fields k with
  | none => none
  | some .vNull => none
  | some v =>
      let s := jsTrim v.toJsString
      if s = "" then none else some (k, encSpacePlus s)

/-- The ordered pairs of the first `part_000` rewrite. -/
def p0Pairs (fields : Fields) : List (String × String) :=
  PF_FIELD_ORDER_p0.filterMap (p0Pair fields)

/-- `buildPfParamString` of the first `part_000` rewrite; `enc` is also
applied to the trimmed passphrase. -/
def buildPfParamStringP0 (fields : Fields) (passphrase : String := "") : String :=
  let parts := (p0Pairs fields).map (fun p => p.1 ++ "=" ++ p.2)
  let parts :=
    if passphrase ≠ "" ∧ jsTrim passphrase ≠ "" then
      parts ++ ["passphrase=" ++ encSpacePlus (jsTrim passphrase)]
    else parts
  joinAmp parts

/-- `PF_FIELD_ORDER` of `serverBU.js`'s `payfastSignature.mjs` (no custom or
confirmation fields). -/
def PF_FIELD_ORDER_BU : List String :=
  ["merchant_id", "merchant_key",
   "return_url", "cancel_url", "notify_url",
   "m_payment_id", "amount", "item_name",
   "payment_method",
   "subscription_type", "billing_date", "recurring_amount", "frequency",
   "cycles"]

/-- The ordered pairs of `serverBU.js`'s `buildParamString` (identical skip
and encoding rules to the first `part_000` rewrite, shorter field order). -/
def buPairs (fields : Fields) : List (String × String) :=
  PF_FIELD_ORDER_BU.filterMap (p0Pair fields)

/-- `buildParamString` of `serverBU.js`'s `payfastSignature.mjs`. -/
def buildParamStringBU (fields : Fields) (passphrase : String := "") : String :=
  let parts := (buPairs fields).map (fun p => p.1 ++ "=" ++ p.2)
  let parts :=
    if passphrase ≠ "" ∧ jsTrim passphrase ≠ "" then
      parts ++ ["passphrase=" ++ encSpacePlus (jsTrim passphrase)]
    else parts
  joinAmp parts

/-- The key/encoded-value pairs of the insertion-order `part_000` rewrite:
`Object.entries(fields).filter(([k,v]) => k !== 'signature' && v != null &&
String(v).trim() !== '')`, mapped through `pfEncode` (our
`encodeFormComponent`), preserving insertion order. -/
def insPair (kv : String × JsValue) : Option (String × String) :=
  if kv.1 = "signature" then none
  else match kv.2 with
    | .vNull => none
    | v =>
        let s := jsTrim v.toJsString
        if s = "" then none else some (kv.1, encodeFormComponent s)

/-- See `insPair`; the filter-map over the entries in insertion order. -/
def insPairs (fields : Fields) : List (String × String) :=
  fields.filterMap insPair

/-- `buildPfParamString` of the insertion-order `part_000` rewrite. -/
def buildPfParamStringIns (fields : Fields) (passphrase : String := "") : String :=
  let parts := (insPairs fields).map (fun p => p.1 ++ "=" ++ p.2)
  let parts :=
    if passphrase ≠ "" ∧ jsTrim passphrase ≠ "" then
      parts ++ ["passphrase=" ++ encodeFormComponent (jsTrim passphrase)]
    else parts
  joinAmp parts

/-- `orderedKeys` of the second `server.js` version's local
`buildPfParamString` (line 926). -/
def orderedKeysB : List String :=
  ["merchant_id", "merchant_key", "return_url", "cancel_url", "notify_url",
   "m_payment_id", "amount", "item_name",
   "subscription_type", "billing_date", "recurring_amount", "frequency",
   "cycles",
   "custom_str1"]

/-- One pair of the second `server.js` version's local `buildPfParamString`:
skip only `undefined`/`null`/the empty string (no trimming), encode the raw
coerced value with `encodeRFC3986`. -/
def bPair (fields : Fields) (k : String) : Option (String × String) :=
  match lookupField fields k with
  | none => none
  | some .vNull => none
  | some (.vStr "") => none
  | some v => some (k, encodeRFC3986 v.toJsString)

/-- The ordered pairs of the second `server.js` version's local builder. -/
def bPairs (fields : Fields) : List (String × String) :=
  orderedKeysB.filterMap (bPair fields)

/-- Local `buildPfParamString` of the second `server.js` version; appends
`&passphrase=...` whenever the passphrase argument is truthy (`none` models
`undefined`/`null`). -/
def buildPfParamStringB (fields : Fields) (passphrase : Option String) : String :=
  let paramStr := joinAmp ((bPairs fields).map (fun p => p.1 ++ "=" ++ p.2))
  match passphrase with
  | some p => if p ≠ "" then paramStr ++ "&passphrase=" ++ encodeRFC3986 p else paramStr
  | none => paramStr

/-! ## MD5 (`crypto.createHash('md5')`), over UTF-8 bytes, lowercase hex -/

/-- 32-bit mask. -/
def MASK32 : Nat := 4294967295

/-- Addition modulo `2^32`. -/
def add32 (a b : Nat) : Nat := (a + b) % 4294967296

/-- Left rotation of a 32-bit word. -/
def rotl32 (x n : Nat) : Nat := ((x <<< n) ||| (x >>> (32 - n))) &&& MASK32

/-- Bitwise complement of a 32-bit word. -/
def not32 (x : Nat) : Nat := MASK32 ^^^ x

/-- The 64 MD5 sine constants. -/
def md5K : List Nat :=
  [0xd76aa478, 0xe8c7b756, 0x242070db, 0xc1bdceee,
   0xf57c0faf, 0x4787c62a, 0xa8304613, 0xfd469501,
   0x698098d8, 0x8b44f7af, 0xffff5bb1, 0x895cd7be,
   0x6b901122, 0xfd987193, 0xa679438e, 0x49b40821,
   0xf61e2562, 0xc040b340, 0x265e5a51, 0xe9b6c7aa,
   0xd62f105d, 0x02441453, 0xd8a1e681, 0xe7d3fbc8,
   0x21e1cde6, 0xc33707d6, 0xf4d50d87, 0x455a14ed,
   0xa9e3e905, 0xfcefa3f8, 0x676f02d9, 0x8d2a4c8a,
   0xfffa3942, 0x8771f681, 0x6d9d6122, 0xfde5380c,
   0xa4beea44, 0x4bdecfa9, 0xf6bb4b60, 0xbebfbc70,
   0x289b7ec6, 0xeaa127fa, 0xd4ef3085, 0x04881d05,
   0xd9d4d039, 0xe6db99e5, 0x1fa27cf8, 0xc4ac5665,
   0xf4292244, 0x432aff97, 0xab9423a7, 0xfc93a039,
   0x655b59c3, 0x8f0ccc92, 0xffeff47d, 0x85845dd1,
   0x6fa87e4f, 0xfe2ce6e0, 0xa3014314, 0x4e0811a1,
   0xf7537e82, 0xbd3af235, 0x2ad7d2bb, 0xeb86d391]

/-- The 64 MD5 per-round rotation amounts. -/
def md5S : List Nat :=
  [7, 12, 17, 22, 7, 12, 17, 22, 7, 12, 17, 22, 7, 12, 17, 22,
   5, 9, 14, 20, 5, 9, 14, 20, 5, 9, 14, 20, 5, 9, 14, 20,
   4, 11, 16, 23, 4, 11, 16, 23, 4, 11, 16, 23, 4, 11, 16, 23,
   6, 10, 15, 21, 6, 10, 15, 21, 6, 10, 15, 21, 6, 10, 15, 21]

/-- MD5 round function for round `i`. -/
def md5F (i b c d : Nat) : Nat :=
  if i < 16 then (b &&& c) ||| (not32 b &&& d)
  else if i < 32 then (d &&& b) ||| (not32 d &&& c)
  else if i < 48 then b ^^^ c ^^^ d
  else c ^^^ (b ||| not32 d)

/-- MD5 message-word index for round `i`. -/
def md5G (i : Nat) : Nat :=
  if i < 16 then i
  else if i < 32 then (5 * i + 1) % 16
  else if i < 48 then (3 * i + 5) % 16
  else (7 * i) % 16

/-- One MD5 round on the `(a, b, c, d)` state. -/
def md5Round (M : List Nat) (st : Nat × Nat × Nat × Nat) (i : Nat) :
    Nat × Nat × Nat × Nat :=
  match st with
  | (a, b, c, d) =>
      let f := add32 (add32 (add32 (md5F i b c d) a) (md5K.getD i 0))
                     (M.getD (md5G i) 0)
      (d, add32 b (rotl32 f (md5S.getD i 0)), b, c)

/-- Process one 64-byte block. -/
def md5Block (st : Nat × Nat × Nat × Nat) (block : List Nat) :
    Nat × Nat × Nat × Nat :=
  let M := (List.range 16).map (fun g =>
    block.getD (4 * g) 0 + 256 * block.getD (4 * g + 1) 0 +
    65536 * block.getD (4 * g + 2) 0 + 16777216 * block.getD (4 * g + 3) 0)
  match st, (List.range 64).foldl (md5Round M) st with
  | (a0, b0, c0, d0), (a, b, c, d) =>
      (add32 a0 a, add32 b0 b, add32 c0 c, add32 d0 d)

/-- MD5 padding: append `0x80`, zeros to 56 mod 64, then the 64-bit
little-endian bit length. -/
def md5Pad (msg : List Nat) : List Nat :=
  let len := msg.length
  let k := (119 - len % 64) % 64
  msg ++ [0x80] ++ List.replicate k 0 ++
    (List.range 8).map (fun i => ((8 * len) >>> (8 * i)) &&& 255)

/-- Split a byte list into 64-byte chunks (structural recursion on a fuel
bound so that the kernel can evaluate it; every step consumes at least one
byte, so `l.length + 1` units of fuel always suffice). -/
def splitChunksAux : Nat → List Nat → List (List Nat)
  | 0, _ => []
  | _ + 1, [] => []
  | fuel + 1, a :: as =>
      ((a :: as).take 64) :: splitChunksAux fuel ((a :: as).drop 64)

/-- Split a byte list into 64-byte chunks. -/
def splitChunks (l : List Nat) : List (List Nat) :=
  splitChunksAux (l.length + 1) l

/-- MD5 digest of a byte list: 16 bytes. -/
def md5Bytes (msg : List Nat) : List Nat :=
  let st := (splitChunks (md5Pad msg)).foldl md5Block
    (0x67452301, 0xefcdab89, 0x98badcfe, 0x10325476)
  match st with
  | (a, b, c, d) =>
      [a, b, c, d].flatMap (fun w =>
        [w &&& 255, (w >>> 8) &&& 255, (w >>> 16) &&& 255, (w >>> 24) &&& 255])

/-- `md5Hex` as in the repository: `crypto.createHash('md5')
.update(s, 'utf8').digest('hex')` (lowercase hex). -/
def md5Hex (s : String) : String :=
  String.join ((md5Bytes (strBytes s)).map byteHexLower)

/-- `generateSignature` of `src/buildPfParamString.mjs`. -/
def generateSignature (fields : Fields) (passphrase : String := "") : String :=
  md5Hex (buildPfParamString fields passphrase)

/-- `generateSignature` of `serverBU.js`'s `payfastSignature.mjs`. -/
def generateSignatureBU (fields : Fields) (passphrase : String := "") : String :=
  md5Hex (buildParamStringBU fields passphrase)

/-- The signature comparison both ITN handlers perform: recompute the digest
over the received fields and compare it with the claimed signature
(`calcSig !== receivedSig` / `expectedSig !== receivedSig`). -/
def verifySignature (fields : Fields) (claimed : String)
    (passphrase : String := "") : Bool :=
  generateSignature fields passphrase = claimed

/-! ## The request handlers of `server.js`

An inbound `application/x-www-form-urlencoded` body: every value is a
string.  Handler state (the Firestore `subscriptions` and `users`
collections, the `subscriber` custom claim) is passed explicitly; each
external call's outcome comes from an oracle, and every external write is
also recorded in an effect trace. -/

/-- A parsed form body. -/
abbrev Payload : Type := List (String × String)

/-- `body[k]`. -/
def lookupP (p : Payload) (k : String) : Option String :=
  List.lookup k p

/-- A form body as a field map for the builders. -/
def payloadFields (p : Payload) : Fields :=
  p.map (fun kv => (kv.1, JsValue.vStr kv.2))

/-- Lexicographic (code-point) order on character lists. -/
def lexLe : List Char → List Char → Bool
  | [], _ => true
  | _ :: _, [] => false
  | a :: as, b :: bs => if a = b then lexLe as bs else decide (a.toNat < b.toNat)

/-- Lexicographic (code-point) order on strings. -/
def strLe (a b : String) : Bool := lexLe a.data b.data

/-- Insert a string into a lexicographically sorted list. -/
def insertSortedStr (x : String) : List String → List String
  | [] => [x]
  | y :: ys => if strLe x y then x :: y :: ys else y :: insertSortedStr x ys

/-- Lexicographic insertion sort. -/
def sortStr (l : List String) : List String :=
  l.foldr insertSortedStr []

/-- Modelled from the spec: the first `server.js` version imports
`buildPfParamStringSorted` and `generateSignatureSorted` from
`buildPfParamString.mjs`, but that module does not define them.  Per §4.1 of
the spec the canonical fields come first in the fixed canonical order and
"fields not in the canonical order list but present with non-empty values are
appended afterward in a deterministic (e.g., lexicographic) order"; the
inbound notification's own `signature` field is excluded, and the passphrase
is appended last when non-empty. -/
def buildPfParamStringSorted (fields : Fields) (passphrase : String) : String :=
  let extraKeys := sortStr ((fields.map Prod.fst).filter
    (fun k => ¬ k ∈ PF_FIELD_ORDER ∧ k ≠ "signature"))
  let extraPairs := extraKeys.filterMap (mjsPair fields)
  joinAmp ((canonicalPairs fields ++ extraPairs ++
    (passphrasePair passphrase).toList).map (fun p => p.1 ++ "=" ++ p.2))

/-- Modelled from the spec: the digest over `buildPfParamStringSorted`
(see that definition). -/
def generateSignatureSorted (fields : Fields) (passphrase : String) : String :=
  md5Hex (buildPfParamStringSorted fields passphrase)

/-- JS `x || d` for an optional string (`""` is falsy). -/
def strOr (o : Option String) (d : String) : String :=
  match o with
  | some s => if s ≠ "" then s else d
  | none => d

/-- Digits to a number. -/
def digitsToNat (l : List Char) : Nat :=
  l.foldl (fun acc c => 10 * acc + (c.toNat - 48)) 0

/-- An exact decimal number, value `mantissa / 10 ^ scale` (the amounts this
system passes around are short decimal numerals, all exactly representable
both here and in the JS floating-point numbers the source computes with). -/
structure JsNumber where
  mantissa : Int
  scale : Nat
deriving DecidableEq, Repr

/-- JS `Number(s)` on the plain decimal numerals this system passes around
(optional sign, digits, optional fraction); any other shape is modelled as
`none` (`NaN`), for which every `>=` comparison is false. -/
def parseDecimal (s : String) : Option JsNumber :=
  let t := jsTrim s
  if t = "" then some ⟨0, 0⟩
  else
    let (sign, body) : Int × String :=
      if strStartsWith t "-" then (-1, ⟨t.data.drop 1⟩) else (1, t)
    match jsSplit body '.' with
    | [ip] =>
        if ip ≠ "" ∧ ip.data.all Char.isDigit then
          some ⟨sign * (digitsToNat ip.data : Int), 0⟩
        else none
    | [ip, fp] =>
        if (ip ≠ "" ∨ fp ≠ "") ∧ ip.data.all Char.isDigit ∧
           fp.data.all Char.isDigit then
          some ⟨sign * ((digitsToNat ip.data : Int) * 10 ^ fp.length +
            (digitsToNat fp.data : Int)), fp.length⟩
        else none
    | _ => none

/-- `amount >= 99` with `NaN` comparing false:
`99 ≤ m / 10^e  ↔  99 * 10^e ≤ m`. -/
def geq99 (a : Option JsNumber) : Bool :=
  match a with
  | some q => 99 * 10 ^ q.scale ≤ q.mantissa
  | none => false

/-- `Number(posted.amount_gross || posted.amount || 0)` of the first ITN
handler. -/
def amountA (posted : Payload) : Option JsNumber :=
  parseDecimal (strOr (lookupP posted "amount_gross")
    (strOr (lookupP posted "amount") "0"))

/-- The `pf` audit object the first ITN handler writes into `users/{uid}`. -/
structure PfMeta where
  last_status : String
  last_itn_at : Nat
  pf_payment_id : Option String
  token : Option String
  amount_gross : Option String
deriving DecidableEq, Repr

/-- JS `x || null` for an optional string field copied into a document. -/
def strOrNull (o : Option String) : Option String :=
  match o with
  | some s => if s ≠ "" then some s else none
  | none => none

/-- A document of the `subscriptions` collection (absent fields are `none`;
a field written as `null` is also modelled as `none`, since no reader in the
core distinguishes the two). -/
structure SubDoc where
  uid : Option String := none
  status : Option String := none
  plan : Option String := none
  createdAt : Option Nat := none
  lastItn : Option Payload := none
  updatedAt : Option Nat := none
deriving DecidableEq, Repr

/-- A document of the `users` collection (the parts this core touches). -/
structure UserDoc where
  subscriber : Option Bool := none
  pf : Option PfMeta := none
deriving DecidableEq, Repr

/-- The persistent state shared by the handlers.  The `subscriber` custom
claim is modelled per user as a `Bool`; the second ITN handler's deletion of
the claim key is modelled as `false` (every reader only tests truthiness). -/
structure SrvState where
  subs : List (String × SubDoc) := []
  users : List (String × UserDoc) := []
  claims : List (String × Bool) := []
deriving DecidableEq, Repr

/-- Lookup in an association list keyed by strings. -/
def getAssoc {β : Type} (l : List (String × β)) (k : String) : Option β :=
  List.lookup k l

/-- Upsert in an association list: replace in place or append. -/
def setAssoc {β : Type} : List (String × β) → String → β → List (String × β)
  | [], k, v => [(k, v)]
  | (k0, v0) :: rest, k, v =>
      if k0 = k then (k, v) :: rest else (k0, v0) :: setAssoc rest k v

/-- An external write performed by a handler. -/
inductive Effect where
  | subSet (docId : String) (uid : Option String) (status : String)
      (lastItn : Payload) (updatedAt : Nat)
  | subCreate (docId : String) (uid : String) (status : String) (plan : String)
      (createdAt : Nat)
  | userSet (uid : String) (subscriber : Bool) (pf : PfMeta)
  | claimsSet (uid : String) (subscriber : Bool)
  | signed (signature : String)
deriving DecidableEq, Repr

/-- What a handler produced: HTTP status, body, the state after the call, and
the trace of external writes it performed. -/
structure HandlerOut where
  status : Nat
  body : String
  st : SrvState
  effects : List Effect
deriving DecidableEq, Repr

/-- Outcomes of the external calls an ITN handler makes: the raw body of the
remote-validation response (`none` models the fetch throwing — network
failure), and whether each database/auth call succeeds or throws. -/
structure ItnOracle where
  validateBody : Option String := some "VALID"
  subSetOk : Bool := true
  userSetOk : Bool := true
  claimsOk : Bool := true
deriving DecidableEq, Repr

/-- The merge write both ITN handlers perform on
`subscriptions/{mPaymentId}`: overwrite `uid`, `status`, `lastItn`,
`updatedAt`, keep any other fields. -/
def writeItnDoc (st : SrvState) (docId : String) (uid : Option String)
    (status : String) (lastItn : Payload) (now : Nat) : SrvState :=
  let d := (getAssoc st.subs docId).getD {}
  let d1 := { d with uid := uid, status := some status,
                     lastItn := some lastItn, updatedAt := some now }
  { st with subs := setAssoc st.subs docId d1 }

/-- The merge write the first ITN handler performs on `users/{uid}`. -/
def writeUserA (st : SrvState) (u : String) (pf : PfMeta) : SrvState :=
  let d := (getAssoc st.users u).getD {}
  let d1 := { d with subscriber := some true, pf := some pf }
  { st with users := setAssoc st.users u d1 }

/-- Set (or, modelled as `false`, delete) the `subscriber` custom claim. -/
def setClaims (st : SrvState) (u : String) (b : Bool) : SrvState :=
  { st with claims := setAssoc st.claims u b }

/-- `uid` truthiness (`undefined` and `""` are falsy). -/
def uidTruthy (u : Option String) : Bool :=
  match u with
  | some s => s ≠ ""
  | none => false

/-- The `pf` audit object the first ITN handler writes:
`{last_status: subStatus || status, last_itn_at: now, pf_payment_id: ... ||
null, token: ... || null, amount_gross: ... || null}`. -/
def pfMetaA (posted : Payload) (now : Nat) : PfMeta :=
  let status := jsToUpper (strOr (lookupP posted "payment_status") "")
  let subStatus := jsToUpper (strOr (lookupP posted "subscription_status") "")
  { last_status := if subStatus ≠ "" then subStatus else status,
    last_itn_at := now,
    pf_payment_id := strOrNull (lookupP posted "pf_payment_id"),
    token := strOrNull (lookupP posted "token"),
    amount_gross := strOrNull (lookupP posted "amount_gross") }

/-- User resolution of the first ITN handler: `posted.custom_str1`, with a
fallback that parses `sub_{uid}_{timestamp}` payment references. -/
def resolveUidA (posted : Payload) : Option String :=
  let c := lookupP posted "custom_str1"
  if uidTruthy c then c
  else
    match lookupP posted "m_payment_id" with
    | some m => if strStartsWith m "sub_" then (jsSplit m '_').get? 1 else c
    | none => c

/-- The first `server.js` version's `POST /api/payfast/itn` handler
(line 529): signature check against the sorted canonical string, remote
validation, merge write of the subscription record, then — only when a user
was resolved, the status reports `ACTIVE`/`COMPLETE` and the amount is at
least 99 — the `users/{uid}` subscriber write and a best-effort custom-claim
mirror (its failure is caught inside and processing continues).  Every path
acknowledges with `200 'OK'`; a throw from an external call falls to the
outer catch, which also acknowledges. -/
def itnHandlerA (posted : Payload) (passphrase : String) (o : ItnOracle)
    (now : Nat) (st : SrvState) : HandlerOut :=
  let receivedSig := strOr (lookupP posted "signature") ""
  let expectedSig := generateSignatureSorted (payloadFields posted) passphrase
  if expectedSig ≠ receivedSig then ⟨200, "OK", st, []⟩
  else
    match o.validateBody with
    | none => ⟨200, "OK", st, []⟩
    | some vbody =>
      if jsTrim vbody ≠ "VALID" then ⟨200, "OK", st, []⟩
      else
        let uid := resolveUidA posted
        let mPaymentId := strOr (lookupP posted "m_payment_id") "unknown"
        if ¬ o.subSetOk then ⟨200, "OK", st, []⟩
        else
          let statusDoc := jsToLower (strOr (lookupP posted "subscription_status")
            (strOr (lookupP posted "payment_status") "unknown"))
          let uidDoc := strOrNull uid
          let st1 := writeItnDoc st mPaymentId uidDoc statusDoc posted now
          let eff1 := [Effect.subSet mPaymentId uidDoc statusDoc posted now]
          let status := jsToUpper (strOr (lookupP posted "payment_status") "")
          let subStatus :=
            jsToUpper (strOr (lookupP posted "subscription_status") "")
          if uidTruthy uid ∧ (subStatus = "ACTIVE" ∨ status = "COMPLETE") ∧
             geq99 (amountA posted) then
            match uid with
            | some u =>
                if ¬ o.userSetOk then ⟨200, "OK", st1, eff1⟩
                else
                  let pf := pfMetaA posted now
                  let st2 := writeUserA st1 u pf
                  let eff2 := eff1 ++ [Effect.userSet u true pf]
                  if o.claimsOk then
                    ⟨200, "OK", setClaims st2 u true,
                     eff2 ++ [Effect.claimsSet u true]⟩
                  else ⟨200, "OK", st2, eff2⟩
            | none => ⟨200, "OK", st1, eff1⟩
          else ⟨200, "OK", st1, eff1⟩

/-- The second `server.js` version's `POST /api/payfast/itn` handler
(line 1327): deletes `signature` from the payload, recomputes the digest with
the local builder, validates remotely, merge-writes the subscription record
and flips the `subscriber` custom claim on `ACTIVE`/`COMPLETE` — with no
amount check — or removes it on `CANCELLED`.  Every path, the outer catch
included, acknowledges with `200 'OK'`. -/
def itnHandlerB (body : Payload) (passphrase : Option String) (o : ItnOracle)
    (now : Nat) (st : SrvState) : HandlerOut :=
  let receivedSig := lookupP body "signature"
  let payload := body.filter (fun kv => kv.1 ≠ "signature")
  let calcSig := md5Hex (buildPfParamStringB (payloadFields payload) passphrase)
  if receivedSig ≠ some calcSig then ⟨200, "OK", st, []⟩
  else
    match o.validateBody with
    | none => ⟨200, "OK", st, []⟩
    | some vbody =>
      if jsTrim vbody ≠ "VALID" then ⟨200, "OK", st, []⟩
      else
        let uid := lookupP payload "custom_str1"
        match lookupP payload "m_payment_id" with
        | none => ⟨200, "OK", st, []⟩
        | some mPaymentId =>
          if ¬ o.subSetOk then ⟨200, "OK", st, []⟩
          else
            let statusDoc := jsToLower (strOr (lookupP payload "subscription_status")
              (strOr (lookupP payload "payment_status") "unknown"))
            let st1 := writeItnDoc st mPaymentId uid statusDoc payload now
            let eff1 := [Effect.subSet mPaymentId uid statusDoc payload now]
            let subStatus := lookupP payload "subscription_status"
            let payStatus := lookupP payload "payment_status"
            if subStatus = some "ACTIVE" ∨ payStatus = some "COMPLETE" then
              match uid, uidTruthy uid && o.claimsOk with
              | some u, true =>
                  ⟨200, "OK", setClaims st1 u true,
                   eff1 ++ [Effect.claimsSet u true]⟩
              | _, _ => ⟨200, "OK", st1, eff1⟩
            else if subStatus = some "CANCELLED" ∨ payStatus = some "CANCELLED"
            then
              match uid, uidTruthy uid && o.claimsOk with
              | some u, true =>
                  ⟨200, "OK", setClaims st1 u false,
                   eff1 ++ [Effect.claimsSet u false]⟩
              | _, _ => ⟨200, "OK", st1, eff1⟩
            else ⟨200, "OK", st1, eff1⟩

/-- The EntitlementFlag as the first server version projects it: `/api/me`
reads `users/{uid}.subscriber`. -/
def entitlementA (st : SrvState) (u : String) : Bool :=
  match getAssoc st.users u with
  | some d => d.subscriber.getD false
  | none => false

/-- The EntitlementFlag as the second server version projects it: the
`subscriber` custom claim. -/
def entitlementB (st : SrvState) (u : String) : Bool :=
  (getAssoc st.claims u).getD false

/-! ### The subscribe handlers -/

/-- Configuration of the first subscribe handler (line 452). -/
structure PfConfigA where
  merchantId : String
  merchantKey : String
  siteUrl : String
  passphrase : String
deriving DecidableEq, Repr

/-- The exact field map the first subscribe handler signs and posts
(`price` is the constant `'99.00'`; `billing_date` is tomorrow's ISO date,
passed in here since it comes from the clock). -/
def subscribeFieldsA (cfg : PfConfigA) (uid : String) (now : Nat)
    (billingDate : String) : Fields :=
  [("merchant_id", .vStr cfg.merchantId),
   ("merchant_key", .vStr cfg.merchantKey),
   ("return_url", .vStr (cfg.siteUrl ++ "/subscribe/success")),
   ("cancel_url", .vStr (cfg.siteUrl ++ "/subscribe/cancel")),
   ("notify_url", .vStr (cfg.siteUrl ++ "/api/payfast/itn")),
   ("m_payment_id", .vStr ("sub_" ++ uid ++ "_" ++ toString now)),
   ("amount", .vStr "99.00"),
   ("item_name", .vStr "Preach Point Monthly"),
   ("custom_str1", .vStr uid),
   ("subscription_type", .vStr "1"),
   ("billing_date", .vStr billingDate),
   ("recurring_amount", .vStr "99.00"),
   ("frequency", .vStr "3"),
   ("cycles", .vStr "0")]

/-- What a subscribe handler produced: HTTP status, the redirect payload
(field map plus signature) when one was sent, the state after the call, and
the write trace. -/
structure SubscribeOut where
  status : Nat
  payloadOut : Option (Fields × String)
  st : SrvState
  effects : List Effect
deriving DecidableEq, Repr

/-- The first `server.js` version's `POST /api/payfast/subscribe` handler:
builds the field map, signs it with `generateSignature`, and returns the
auto-posting form.  It performs no database write at all — no pending
subscription record is created. -/
def subscribeHandlerA (cfg : PfConfigA) (uid : Option String) (now : Nat)
    (billingDate : String) (st : SrvState) : SubscribeOut :=
  match uid with
  | none => ⟨401, none, st, []⟩
  | some u =>
      let fields := subscribeFieldsA cfg u now billingDate
      let signature := generateSignature fields cfg.passphrase
      ⟨200, some (fields, signature), st, [Effect.signed signature]⟩

/-- Configuration of the second subscribe handler (line 1249); every value
comes from the environment and may be absent. -/
structure PfConfigB where
  merchantId : Option String := none
  merchantKey : Option String := none
  returnUrl : Option String := none
  cancelUrl : Option String := none
  notifyUrl : Option String := none
  amount : Option String := none
  itemName : Option String := none
  passphrase : Option String := none
deriving DecidableEq, Repr

/-- A field-map entry that is absent when the environment value is. -/
def optEntry (k : String) (v : Option String) : Fields :=
  match v with
  | some s => [(k, JsValue.vStr s)]
  | none => []

/-- The exact field map the second subscribe handler signs and posts
(`m_payment_id` is the freshly generated Firestore document id). -/
def subscribeFieldsB (cfg : PfConfigB) (docId : String) (uid : String) :
    Fields :=
  optEntry "merchant_id" cfg.merchantId ++
  optEntry "merchant_key" cfg.merchantKey ++
  optEntry "return_url" cfg.returnUrl ++
  optEntry "cancel_url" cfg.cancelUrl ++
  optEntry "notify_url" cfg.notifyUrl ++
  [("m_payment_id", JsValue.vStr docId)] ++
  optEntry "amount" cfg.amount ++
  optEntry "item_name" cfg.itemName ++
  [("subscription_type", JsValue.vNum 1),
   ("billing_date", JsValue.vStr "")] ++
  optEntry "recurring_amount" cfg.amount ++
  [("frequency", JsValue.vNum 3),
   ("cycles", JsValue.vNum 0),
   ("custom_str1", JsValue.vStr uid)]

/-- The second `server.js` version's `POST /api/payfast/subscribe` handler:
generates a document id, builds and signs the field map (with the local
builder), then persists the pending record `{uid, status: 'pending', plan:
'monthly', createdAt}` under that id, and returns the auto-posting form.  If
the persistence write throws, the catch responds `500` and no payload is
returned — but the signature has already been computed at that point. -/
def subscribeHandlerB (cfg : PfConfigB) (docId : String) (uid : String)
    (persistOk : Bool) (now : Nat) (st : SrvState) : SubscribeOut :=
  let fields := subscribeFieldsB cfg docId uid
  let signature := md5Hex (buildPfParamStringB fields cfg.passphrase)
  if persistOk then
    let pending : SubDoc := { uid := some uid, status := some "pending",
                              plan := some "monthly", createdAt := some now }
    let st1 := { st with subs := setAssoc st.subs docId pending }
    ⟨200, some (fields, signature), st1,
     [Effect.signed signature,
      Effect.subCreate docId uid "pending" "monthly" now]⟩
  else ⟨500, none, st, [Effect.signed signature]⟩

/-! ## Concrete fixtures used by the theorems -/

/-- Is this an uppercase hexadecimal digit (`0-9A-F`)? -/
def isHexUpperDigit (c : Char) : Bool :=
  c.isDigit ∨ (65 ≤ c.toNat ∧ c.toNat ≤ 70)

/-- The concrete scenario field map of spec §8. -/
def scenarioFields : Fields :=
  [("merchant_id", JsValue.vStr "X"), ("amount", JsValue.vStr "99.00"),
   ("item_name", JsValue.vStr "Monthly Plan")]

/-- The canonical string spec §8 expects for `scenarioFields`. -/
def scenarioCanonical : String :=
  "merchant_id=X&amount=99.00&item_name=Monthly+Plan"

/-- The scenario field map with `amount` tampered to `9.00`. -/
def tamperedFields : Fields :=
  [("merchant_id", JsValue.vStr "X"), ("amount", JsValue.vStr "9.00"),
   ("item_name", JsValue.vStr "Monthly Plan")]

/-- A correctly signed `COMPLETE` notification for the second ITN handler:
its canonical string under the local builder (no passphrase) is
`m_payment_id=sub1&amount=99.00&custom_str1=u1`, and the `signature` field is
that string's MD5. -/
def payloadB1 : Payload :=
  [("m_payment_id", "sub1"), ("custom_str1", "u1"),
   ("payment_status", "COMPLETE"), ("amount", "99.00"),
   ("signature", "ef6dff51c038af4500138cc1b778ae98")]

/-- A correctly signed `ACTIVE` notification with amount `1.00` for the
second ITN handler: the `signature` field is the MD5 of
`m_payment_id=sub2&amount=1.00&custom_str1=u1`. -/
def payloadB2 : Payload :=
  [("m_payment_id", "sub2"), ("custom_str1", "u1"),
   ("subscription_status", "ACTIVE"), ("amount", "1.00"),
   ("signature", "8ac78816a43f4facc6c500d0f9e9a381")]

/-- A correctly signed `COMPLETE` notification for the first ITN handler:
the `signature` field is the MD5 of its sorted canonical string
`m_payment_id=sub_u1_5&custom_str1=u1&amount_gross=99.00&payment_status=COMPLETE`. -/
def payloadA1 : Payload :=
  [("m_payment_id", "sub_u1_5"), ("custom_str1", "u1"),
   ("payment_status", "COMPLETE"), ("amount_gross", "99.00"),
   ("signature", "70508c4fb780dc6dbdb6df7e085349bf")]

/-- The all-succeed oracle. -/
def stdOracle : ItnOracle := {}

/-- An oracle whose remote-validation response has the raw body `" VALID"` —
not the exact token `"VALID"`. -/
def rawValidOracle : ItnOracle := { validateBody := some " VALID" }

/-- A sample configuration for the first subscribe handler. -/
def cfgA0 : PfConfigA :=
  { merchantId := "10041319", merchantKey := "26zrknv5myxxx",
    siteUrl := "https://example.test", passphrase := "" }

/-! ## Helper lemmas -/

/-- Upserting the same value twice is the same as once. -/
theorem setAssoc_idem {β : Type} (l : List (String × β)) (k : String) (v : β) :
    setAssoc (setAssoc l k v) k v = setAssoc l k v := by
  induction l with
  | nil => simp [setAssoc]
  | cons hd tl ih =>
      obtain ⟨k0, v0⟩ := hd
      by_cases h : k0 = k
      · simp [setAssoc, h]
      · simp [setAssoc, h, ih]

/-- Lookup after upsert finds the upserted value. -/
theorem getAssoc_setAssoc {β : Type} (l : List (String × β)) (k : String) (v : β) :
    getAssoc (setAssoc l k v) k = some v := by
  induction l with
  | nil => simp [getAssoc, setAssoc, List.lookup]
  | cons hd tl ih =>
      obtain ⟨k0, v0⟩ := hd
      by_cases h : k0 = k
      · simp [getAssoc, setAssoc, h, List.lookup]
      · have hb : (k == k0) = false := by simp [Ne.symm h]
        simpa [getAssoc, setAssoc, h, List.lookup, hb] using ih

/-- A canonical pair produced for key `k` carries key `k`. -/
theorem mjsPair_key (fields : Fields) (k : String) (p : String × String)
    (h : mjsPair fields k = some p) : p.1 = k := by
  unfold mjsPair at h
  split at h
  · exact absurd h (by simp)
  · exact absurd h (by simp)
  · dsimp at h
    split at h
    · exact absurd h (by simp)
    · rw [← Option.some.inj h]

/-- The keys of a key-preserving filter-map form a sublist of the source
keys (so their relative order is the source's). -/
theorem filterMap_keys_sublist {α : Type} (key : α → String)
    (f : α → Option (String × String))
    (hf : ∀ a p, f a = some p → p.1 = key a) :
    ∀ l : List α, ((l.filterMap f).map Prod.fst).Sublist (l.map key) := by
  intro l
  induction l with
  | nil => simp
  | cons a tl ih =>
      cases hfa : f a with
      | none =>
          simp only [List.filterMap_cons, hfa, List.map_cons]
          exact ih.cons _
      | some p =>
          simp only [List.filterMap_cons, hfa, List.map_cons]
          rw [hf a p hfa]
          exact ih.cons₂ _

/-- Exactly when `mjsPair` emits a pair, and what it is. -/
theorem mjsPair_eq_some_iff (fields : Fields) (k v : String) :
    mjsPair fields k = some (k, v) ↔
      ∃ jv, lookupField fields k = some jv ∧ jv ≠ JsValue.vNull ∧
        jsTrim jv.toJsString ≠ "" ∧
        v = encodeFormComponent (jsTrim jv.toJsString) := by
  unfold mjsPair
  cases hl : lookupField fields k with
  | none => simp
  | some jv =>
      cases jv with
      | vNull => simp
      | vStr s =>
          by_cases hs : jsTrim (JsValue.vStr s).toJsString = ""
          · simp [hs]
          · simp [hs, eq_comm]
            exact fun _ => Ne.symm hs
      | vNum n =>
          by_cases hs : jsTrim (JsValue.vNum n).toJsString = ""
          · simp [hs]
          · simp [hs, eq_comm]
            exact fun _ => Ne.symm hs

/-- Membership in the canonical pair list. -/
theorem canonicalPairs_mem (fields : Fields) (k v : String) :
    (k, v) ∈ canonicalPairs fields ↔
      k ∈ PF_FIELD_ORDER ∧ mjsPair fields k = some (k, v) := by
  unfold canonicalPairs
  rw [List.mem_filterMap]
  constructor
  · rintro ⟨a, ha, hfa⟩
    have hk := mjsPair_key fields a _ hfa
    simp only at hk
    subst hk
    exact ⟨ha, hfa⟩
  · rintro ⟨hk, hp⟩
    exact ⟨k, hk, hp⟩

/-- A space encodes to `+`. -/
theorem encodeFormComponentChar_space : encodeFormComponentChar ' ' = "+" := rfl

/-- Characters `encodeURIComponent` leaves alone stay themselves. -/
theorem encodeFormComponentChar_unreserved (c : Char) (h : uriUnreserved c) :
    encodeFormComponentChar c = String.singleton c := by
  by_cases hsp : c = ' '
  · subst hsp; exact absurd h (by decide)
  · simp [encodeFormComponentChar, hsp, h]

/-- Every other character is percent-encoded. -/
theorem encodeFormComponentChar_reserved (c : Char) (hsp : c ≠ ' ')
    (h : ¬ uriUnreserved c) : encodeFormComponentChar c = percentEncodeChar c := by
  simp [encodeFormComponentChar, hsp, h]

/-- For ASCII characters the percent encoding is one `%XX` escape. -/
theorem percentEncodeChar_ascii (c : Char) (h : c.toNat < 128) :
    percentEncodeChar c = "%" ++ byteHexUpper c.toNat := by
  have h8 : c.toNat < 0x80 := h
  simp [percentEncodeChar, utf8Bytes, h8, String.join]

/-- The two characters of a byte's escape. -/
theorem byteHexUpper_data (b : Nat) :
    (byteHexUpper b).data =
      [hexDigitUpper (b / 16 % 16), hexDigitUpper (b % 16)] := rfl

/-- Hex digits are uppercase hex digits. -/
theorem hexDigitUpper_valid :
    ∀ n : Nat, n < 16 → isHexUpperDigit (hexDigitUpper n) = true := by decide

/-- The canonical pairs appear in the fixed canonical key order. -/
theorem canonicalPairs_sublist (fields : Fields) :
    ((canonicalPairs fields).map Prod.fst).Sublist PF_FIELD_ORDER := by
  have := filterMap_keys_sublist (fun k => k) (mjsPair fields)
    (fun a p hp => mjsPair_key fields a p hp) PF_FIELD_ORDER
  simpa using this

/-- Trimming the empty string. -/
theorem jsTrim_empty : jsTrim "" = "" := rfl

/-- An insertion-order pair carries its entry's key. -/
theorem insPair_key (kv : String × JsValue) (p : String × String)
    (h : insPair kv = some p) : p.1 = kv.1 := by
  unfold insPair at h
  split at h
  · exact absurd h (by simp)
  · split at h
    · exact absurd h (by simp)
    · dsimp at h
      split at h
      · exact absurd h (by simp)
      · rw [← Option.some.inj h]

/-- The insertion-order builder never emits the `signature` key. -/
theorem insPair_not_signature (kv : String × JsValue) (p : String × String)
    (h : insPair kv = some p) : p.1 ≠ "signature" := by
  have hk := insPair_key kv p h
  unfold insPair at h
  split at h
  · exact absurd h (by simp)
  · next hs => rw [hk]; exact hs

/-- A local-builder pair carries the key it was built for. -/
theorem bPair_key (fields : Fields) (k : String) (p : String × String)
    (h : bPair fields k = some p) : p.1 = k := by
  unfold bPair at h
  split at h
  · exact absurd h (by simp)
  · exact absurd h (by simp)
  · exact absurd h (by simp)
  · rw [← Option.some.inj h]

/-- The second ITN handler always acknowledges with `200 'OK'`. -/
theorem itnB_ack (body : Payload) (pass : Option String) (o : ItnOracle)
    (now : Nat) (st : SrvState) :
    (itnHandlerB body pass o now st).status = 200 ∧
    (itnHandlerB body pass o now st).body = "OK" := by
  unfold itnHandlerB
  dsimp only
  repeat' split <;> try exact ⟨rfl, rfl⟩

/-- The first ITN handler always acknowledges with `200 'OK'`. -/
theorem itnA_ack (posted : Payload) (pass : String) (o : ItnOracle)
    (now : Nat) (st : SrvState) :
    (itnHandlerA posted pass o now st).status = 200 ∧
    (itnHandlerA posted pass o now st).body = "OK" := by
  unfold itnHandlerA
  dsimp only
  repeat' split <;> try exact ⟨rfl, rfl⟩

/-- Signature mismatch: the first handler acknowledges and changes nothing. -/
theorem itnA_reject_sig (posted : Payload) (pass : String) (o : ItnOracle)
    (now : Nat) (st : SrvState)
    (h : generateSignatureSorted (payloadFields posted) pass ≠
      strOr (lookupP posted "signature") "") :
    itnHandlerA posted pass o now st = ⟨200, "OK", st, []⟩ := by
  unfold itnHandlerA
  dsimp only
  rw [if_pos h]

/-- Signature mismatch: the second handler acknowledges and changes nothing. -/
theorem itnB_reject_sig (body : Payload) (pass : Option String) (o : ItnOracle)
    (now : Nat) (st : SrvState)
    (h : lookupP body "signature" ≠ some (md5Hex (buildPfParamStringB
      (payloadFields (body.filter (fun kv => kv.1 ≠ "signature"))) pass))) :
    itnHandlerB body pass o now st = ⟨200, "OK", st, []⟩ := by
  unfold itnHandlerB
  dsimp only
  rw [if_pos h]

/-- Network failure during validation: first handler, no mutation. -/
theorem itnA_reject_net (posted : Payload) (pass : String) (o : ItnOracle)
    (now : Nat) (st : SrvState) (h : o.validateBody = none) :
    itnHandlerA posted pass o now st = ⟨200, "OK", st, []⟩ := by
  unfold itnHandlerA
  dsimp only
  split
  · rfl
  · rw [h]

/-- Network failure during validation: second handler, no mutation. -/
theorem itnB_reject_net (body : Payload) (pass : Option String) (o : ItnOracle)
    (now : Nat) (st : SrvState) (h : o.validateBody = none) :
    itnHandlerB body pass o now st = ⟨200, "OK", st, []⟩ := by
  unfold itnHandlerB
  dsimp only
  split
  · rfl
  · rw [h]

/-- Validation response whose trimmed body is not `VALID`: first handler,
no mutation. -/
theorem itnA_reject_invalid (posted : Payload) (pass : String) (o : ItnOracle)
    (now : Nat) (st : SrvState) (t : String) (h : o.validateBody = some t)
    (ht : jsTrim t ≠ "VALID") :
    itnHandlerA posted pass o now st = ⟨200, "OK", st, []⟩ := by
  unfold itnHandlerA
  dsimp only
  split
  · rfl
  · rw [h]
    dsimp only
    rw [if_pos ht]

/-- Validation response whose trimmed body is not `VALID`: second handler,
no mutation. -/
theorem itnB_reject_invalid (body : Payload) (pass : Option String)
    (o : ItnOracle) (now : Nat) (st : SrvState) (t : String)
    (h : o.validateBody = some t) (ht : jsTrim t ≠ "VALID") :
    itnHandlerB body pass o now st = ⟨200, "OK", st, []⟩ := by
  unfold itnHandlerB
  dsimp only
  split
  · rfl
  · rw [h]
    dsimp only
    rw [if_pos ht]

/-- Rewriting the same subscription-record fields is a no-op. -/
theorem writeItnDoc_idem (st : SrvState) (docId : String) (u : Option String)
    (s : String) (li : Payload) (n : Nat) :
    writeItnDoc (writeItnDoc st docId u s li n) docId u s li n =
      writeItnDoc st docId u s li n := by
  unfold writeItnDoc
  dsimp only
  rw [getAssoc_setAssoc]
  dsimp only [Option.getD]
  rw [setAssoc_idem]

/-- Setting the same claim twice is a no-op. -/
theorem setClaims_idem (st : SrvState) (u : String) (b : Bool) :
    setClaims (setClaims st u b) u b = setClaims st u b := by
  unfold setClaims
  dsimp only
  rw [setAssoc_idem]

/-- Rewriting the subscription record after an interleaved claim write is
still a no-op. -/
theorem writeItnDoc_setClaims (st : SrvState) (docId : String)
    (u : Option String) (s : String) (li : Payload) (n : Nat)
    (cu : String) (b : Bool) :
    writeItnDoc (setClaims (writeItnDoc st docId u s li n) cu b) docId u s li n =
      setClaims (writeItnDoc st docId u s li n) cu b := by
  unfold writeItnDoc setClaims
  dsimp only
  rw [getAssoc_setAssoc]
  dsimp only [Option.getD]
  rw [setAssoc_idem]

/-- Delivering the same notification to the second ITN handler twice leaves
the state where the first delivery put it. -/
theorem itnB_replay_state (body : Payload) (pass : Option String)
    (o : ItnOracle) (now : Nat) (st : SrvState) :
    (itnHandlerB body pass o now ((itnHandlerB body pass o now st).st)).st =
      (itnHandlerB body pass o now st).st := by
  by_cases h1 : lookupP body "signature" ≠ some (md5Hex (buildPfParamStringB
      (payloadFields (body.filter (fun kv => kv.1 ≠ "signature"))) pass))
  · rw [itnB_reject_sig body pass o now st h1]
    rw [itnB_reject_sig body pass o now _ h1]
  · cases h2 : o.validateBody with
    | none => rw [itnB_reject_net _ _ _ _ _ h2, itnB_reject_net _ _ _ _ _ h2]
    | some t =>
      by_cases h3 : jsTrim t ≠ "VALID"
      · rw [itnB_reject_invalid _ _ _ _ _ t h2 h3,
            itnB_reject_invalid _ _ _ _ _ t h2 h3]
      · unfold itnHandlerB
        dsimp only
        rw [if_neg h1, if_neg h1, h2]
        dsimp only
        rw [if_neg h3, if_neg h3]
        cases h4 : lookupP (body.filter (fun kv => kv.1 ≠ "signature"))
            "m_payment_id" with
        | none => rfl
        | some mp =>
            dsimp only
            by_cases h5 : ¬ o.subSetOk = true
            · rw [if_pos h5, if_pos h5]
            · rw [if_neg h5, if_neg h5]
              by_cases h6 :
                  lookupP (body.filter (fun kv => kv.1 ≠ "signature"))
                    "subscription_status" = some "ACTIVE" ∨
                  lookupP (body.filter (fun kv => kv.1 ≠ "signature"))
                    "payment_status" = some "COMPLETE"
              · rw [if_pos h6, if_pos h6]
                cases h7 : lookupP (body.filter (fun kv => kv.1 ≠ "signature"))
                    "custom_str1" with
                | none =>
                    dsimp only
                    rw [writeItnDoc_idem]
                | some u =>
                    cases h8 : uidTruthy (some u) && o.claimsOk with
                    | true =>
                        dsimp only
                        rw [writeItnDoc_setClaims, setClaims_idem]
                    | false =>
                        dsimp only
                        rw [writeItnDoc_idem]
              · rw [if_neg h6, if_neg h6]
                by_cases h9 :
                    lookupP (body.filter (fun kv => kv.1 ≠ "signature"))
                      "subscription_status" = some "CANCELLED" ∨
                    lookupP (body.filter (fun kv => kv.1 ≠ "signature"))
                      "payment_status" = some "CANCELLED"
                · rw [if_pos h9, if_pos h9]
                  cases h7 : lookupP (body.filter (fun kv => kv.1 ≠ "signature"))
                      "custom_str1" with
                  | none =>
                      dsimp only
                      rw [writeItnDoc_idem]
                  | some u =>
                      cases h8 : uidTruthy (some u) && o.claimsOk with
                      | true =>
                          dsimp only
                          rw [writeItnDoc_setClaims, setClaims_idem]
                      | false =>
                          dsimp only
                          rw [writeItnDoc_idem]
                · rw [if_neg h9, if_neg h9]
                  dsimp only
                  rw [writeItnDoc_idem]

/-- The second subscribe handler puts its generated document id into
`m_payment_id`. -/
theorem subscribeFieldsB_mpid (cfg : PfConfigB) (docId uid : String) :
    lookupField (subscribeFieldsB cfg docId uid) "m_payment_id" =
      some (JsValue.vStr docId) := by
  rcases cfg with ⟨mi, mk, ru, cu, nu, am, it, pp⟩
  cases mi <;> cases mk <;> cases ru <;> cases cu <;> cases nu <;> rfl

/-! ## The claims -/

/-- Claim C1, counterexample.  The claim says adding a field to the field map
makes verification fail; it does not: a key outside the canonical order list
(here `foo`) is silently ignored by the canonical builder, so the signature
recomputed over the enlarged map is unchanged and verification still
succeeds. -/
theorem verify_accepts_added_field :
    verifySignature (scenarioFields ++ [("foo", JsValue.vStr "bar")])
      (generateSignature scenarioFields "") "" = true := by decide

/-- Claim C1, amended.  Verifying the signature produced by `sign` over the
same field map and secret always succeeds, and verification fails when the
tampering changes the canonical string: concretely, tampering `amount` from
`99.00` to `9.00` makes it fail, and reordering the canonical output changes
the digest.  (A change invisible to the canonical string — an extra
non-canonical field, a whitespace-only edit — does not make it fail; see the
counterexample.) -/
theorem verify_roundtrip_and_canonical_tamper :
    (∀ (fields : Fields) (pass : String),
        verifySignature fields (generateSignature fields pass) pass = true) ∧
    verifySignature tamperedFields (generateSignature scenarioFields "") "" =
      false ∧
    md5Hex "merchant_id=X&amount=99.00&item_name=Monthly+Plan" ≠
      md5Hex "amount=99.00&merchant_id=X&item_name=Monthly+Plan" := by
  refine ⟨fun fields pass => by simp [verifySignature], by decide, by decide⟩

/-- Claim C2, counterexample.  The first `part_000` rewrite of the canonical
encoder does not percent-encode reserved characters: on a value containing
`&` and `=` it emits them raw, while the `.mjs` encoder emits `%26`/`%3D`. -/
theorem p0_encoder_leaves_reserved_unencoded :
    buildPfParamStringP0 [("item_name", JsValue.vStr "a&b=c")] "" =
      "item_name=a&b=c" ∧
    buildPfParamString [("item_name", JsValue.vStr "a&b=c")] "" =
      "item_name=a%26b%3Dc" :=
  ⟨by decide, by decide⟩

/-- Claim C2, amended.  For the encoder of `src/buildPfParamString.mjs` (the
one the server imports): the canonical pair list contains a pair for key `k`
exactly when `k` is in the canonical order and its value is non-empty after
trimming (null/undefined/empty/whitespace-only are omitted, never emitted as
empty pairs), the keys appear in the fixed canonical order, and values are
form-encoded — a space becomes `+`, characters the encoding keeps stay
themselves, every other character becomes `%XX` escapes of its UTF-8 bytes
with uppercase hex digits. -/
theorem mjs_encoder_contract :
    (∀ (fields : Fields) (k v : String),
        (k, v) ∈ canonicalPairs fields ↔
          k ∈ PF_FIELD_ORDER ∧ ∃ jv, lookupField fields k = some jv ∧
            jv ≠ JsValue.vNull ∧ jsTrim jv.toJsString ≠ "" ∧
            v = encodeFormComponent (jsTrim jv.toJsString)) ∧
    (∀ fields : Fields,
        ((canonicalPairs fields).map Prod.fst).Sublist PF_FIELD_ORDER) ∧
    encodeFormComponentChar ' ' = "+" ∧
    (∀ c : Char, uriUnreserved c →
        encodeFormComponentChar c = String.singleton c) ∧
    (∀ c : Char, c ≠ ' ' → ¬ uriUnreserved c →
        encodeFormComponentChar c = percentEncodeChar c) ∧
    (∀ c : Char, c.toNat < 128 →
        percentEncodeChar c = "%" ++ byteHexUpper c.toNat) ∧
    (∀ b : Nat, (byteHexUpper b).data =
        [hexDigitUpper (b / 16 % 16), hexDigitUpper (b % 16)]) ∧
    (∀ n : Nat, n < 16 → isHexUpperDigit (hexDigitUpper n) = true) := by
  refine ⟨?_, canonicalPairs_sublist, encodeFormComponentChar_space,
    encodeFormComponentChar_unreserved, encodeFormComponentChar_reserved,
    percentEncodeChar_ascii, byteHexUpper_data, hexDigitUpper_valid⟩
  intro fields k v
  rw [canonicalPairs_mem, mjsPair_eq_some_iff]

/-- Claim C2, witness: the contract applied at concrete characters. -/
theorem mjs_encoder_contract_witness :
    encodeFormComponentChar 'a' = String.singleton 'a' ∧
    encodeFormComponentChar '/' = percentEncodeChar '/' ∧
    percentEncodeChar '/' = "%" ++ byteHexUpper 47 ∧
    isHexUpperDigit (hexDigitUpper 15) = true :=
  ⟨mjs_encoder_contract.2.2.2.1 'a' (by decide),
   mjs_encoder_contract.2.2.2.2.1 '/' (by decide) (by decide),
   mjs_encoder_contract.2.2.2.2.2.1 '/' (by decide),
   mjs_encoder_contract.2.2.2.2.2.2.2 15 (by decide)⟩

/-- Claim C3, counterexample.  The claim says any remote-validation response
other than the exact string `VALID` leads to no state mutation; but the
validation client trims the response body before comparing, so the raw body
`" VALID"` — which is not the exact string `VALID` — is accepted by the
second ITN handler and the subscription record is written. -/
theorem itnB_accepts_untrimmed_valid_response :
    " VALID" ≠ "VALID" ∧
    (itnHandlerB payloadB1 none rawValidOracle 7 {}).st ≠ ({} : SrvState) :=
  ⟨by decide, by decide⟩

/-- Claim C3, amended.  For both ITN handlers: a signature mismatch, a
network failure during remote validation, or a validation response whose
trimmed body is anything other than `VALID` (fail-closed) is acknowledged
`200 'OK'` with no state mutation and no external write. -/
theorem itn_reject_paths_no_mutation :
    ∀ (posted : Payload) (passA : String) (passB : Option String)
      (o : ItnOracle) (now : Nat) (st : SrvState),
      (generateSignatureSorted (payloadFields posted) passA ≠
          strOr (lookupP posted "signature") "" →
        itnHandlerA posted passA o now st = ⟨200, "OK", st, []⟩) ∧
      (lookupP posted "signature" ≠ some (md5Hex (buildPfParamStringB
          (payloadFields (posted.filter (fun kv => kv.1 ≠ "signature")))
          passB)) →
        itnHandlerB posted passB o now st = ⟨200, "OK", st, []⟩) ∧
      (o.validateBody = none →
        itnHandlerA posted passA o now st = ⟨200, "OK", st, []⟩ ∧
        itnHandlerB posted passB o now st = ⟨200, "OK", st, []⟩) ∧
      (∀ t, o.validateBody = some t → jsTrim t ≠ "VALID" →
        itnHandlerA posted passA o now st = ⟨200, "OK", st, []⟩ ∧
        itnHandlerB posted passB o now st = ⟨200, "OK", st, []⟩) :=
  fun posted passA passB o now st =>
    ⟨fun h => itnA_reject_sig posted passA o now st h,
     fun h => itnB_reject_sig posted passB o now st h,
     fun h => ⟨itnA_reject_net posted passA o now st h,
               itnB_reject_net posted passB o now st h⟩,
     fun t h ht => ⟨itnA_reject_invalid posted passA o now st t h ht,
                    itnB_reject_invalid posted passB o now st t h ht⟩⟩

/-- Claim C3, witness: a network failure and an `INVALID` response at
concrete inputs, both acknowledged with no mutation. -/
theorem itn_reject_paths_no_mutation_witness :
    itnHandlerA [] "" { validateBody := none } 0 {} = ⟨200, "OK", {}, []⟩ ∧
    itnHandlerB [] none { validateBody := some "INVALID" } 0 {} =
      ⟨200, "OK", {}, []⟩ :=
  ⟨((itn_reject_paths_no_mutation [] "" none { validateBody := none } 0
      {}).2.2.1 rfl).1,
   ((itn_reject_paths_no_mutation [] "" none { validateBody := some "INVALID" }
      0 {}).2.2.2 "INVALID" rfl (by decide)).2⟩

/-- Claim C4, counterexample.  The claim says an identical second delivery is
detected as a duplicate via the stored `lastNotification` and re-acknowledged
as a no-op; in fact neither handler compares `lastItn` at all — the second
delivery of the same correctly signed notification performs its external
writes again (here, for the second handler: the subscription merge write and
the claim write), while the first delivery did apply. -/
theorem itnB_second_delivery_reapplies_effects :
    (itnHandlerB payloadB1 none stdOracle 7
        ((itnHandlerB payloadB1 none stdOracle 7 {}).st)).effects ≠ [] ∧
    entitlementB (itnHandlerB payloadB1 none stdOracle 7 {}).st "u1" = true :=
  ⟨by decide, by decide⟩

/-- Claim C4, amended.  There is no duplicate detection: a bit-for-bit
identical second delivery re-runs the handler and reapplies its writes.  The
writes are idempotent, so the state after the second delivery equals the
state after the first, the second delivery is acknowledged `200 'OK'`, and
the EntitlementFlag of every user is unaffected by the second call. -/
theorem itnB_replay_idempotent :
    ∀ (body : Payload) (pass : Option String) (o : ItnOracle) (now : Nat)
      (st : SrvState),
      (itnHandlerB body pass o now ((itnHandlerB body pass o now st).st)).st =
        (itnHandlerB body pass o now st).st ∧
      (itnHandlerB body pass o now
        ((itnHandlerB body pass o now st).st)).status = 200 ∧
      (itnHandlerB body pass o now
        ((itnHandlerB body pass o now st).st)).body = "OK" ∧
      ∀ u, entitlementB (itnHandlerB body pass o now
          ((itnHandlerB body pass o now st).st)).st u =
        entitlementB ((itnHandlerB body pass o now st).st) u := by
  intro body pass o now st
  refine ⟨itnB_replay_state body pass o now st,
    (itnB_ack body pass o now _).1, (itnB_ack body pass o now _).2, ?_⟩
  intro u
  rw [itnB_replay_state body pass o now st]

/-- Claim C5, counterexample.  The second ITN handler flips the `subscriber`
claim on an `ACTIVE` status with no amount check at all: a correctly signed
notification reporting `ACTIVE` with amount `1.00` (value 100/10^2, below the
99 minimum) sets the EntitlementFlag true. -/
theorem itnB_activates_below_minimum :
    entitlementB (itnHandlerB payloadB2 none stdOracle 7 {}).st "u1" = true ∧
    lookupP payloadB2 "subscription_status" = some "ACTIVE" ∧
    amountA payloadB2 = some ⟨100, 2⟩ ∧
    geq99 (amountA payloadB2) = false :=
  ⟨by decide, by decide, by decide, by decide⟩

/-- Claim C5, amended.  In the first ITN handler the claimed guard does hold:
for an accepted notification (matching signature, validation `VALID`, writes
succeeding), the `users/{uid}` subscriber write happens if and only if a user
was resolved and the notification reports `ACTIVE`/`COMPLETE` and the amount
is at least 99.  (The second handler flips the claim without the amount
check; see the counterexample.) -/
theorem itnA_activation_guard_iff (posted : Payload) (pass : String)
    (o : ItnOracle) (now : Nat) (st : SrvState) (t : String) (u : String)
    (hsig : generateSignatureSorted (payloadFields posted) pass =
      strOr (lookupP posted "signature") "")
    (hv : o.validateBody = some t) (ht : jsTrim t = "VALID")
    (hdb : o.subSetOk = true) (hus : o.userSetOk = true) :
    (Effect.userSet u true (pfMetaA posted now) ∈
        (itnHandlerA posted pass o now st).effects) ↔
      (resolveUidA posted = some u ∧ u ≠ "" ∧
       (jsToUpper (strOr (lookupP posted "subscription_status") "") = "ACTIVE" ∨
        jsToUpper (strOr (lookupP posted "payment_status") "") = "COMPLETE") ∧
       geq99 (amountA posted) = true) := by
  unfold itnHandlerA
  dsimp only
  rw [if_neg (fun h => h hsig), hv]
  dsimp only
  rw [if_neg (fun h => h ht), hdb]
  rw [if_neg (by simp)]
  cases hu : resolveUidA posted with
  | none =>
      rw [if_neg (by simp [uidTruthy])]
      simp
  | some u0 =>
      by_cases hcond : uidTruthy (some u0) = true ∧
        (jsToUpper (strOr (lookupP posted "subscription_status") "") = "ACTIVE" ∨
         jsToUpper (strOr (lookupP posted "payment_status") "") = "COMPLETE") ∧
        geq99 (amountA posted) = true
      · rw [if_pos hcond]
        dsimp only
        rw [hus]
        rw [if_neg (by simp)]
        obtain ⟨htr, hsc, hamt⟩ := hcond
        have hu0 : u0 ≠ "" := by simpa [uidTruthy] using htr
        by_cases hcl : o.claimsOk = true
        · rw [if_pos hcl]
          dsimp only
          constructor
          · intro hm
            simp only [List.mem_append, List.mem_singleton] at hm
            rcases hm with (hm | hm) | hm
            · exact absurd hm (by simp)
            · have : u = u0 := by simpa using hm
              subst this
              exact ⟨rfl, hu0, hsc, hamt⟩
            · exact absurd hm (by simp)
          · rintro ⟨he, -, -, -⟩
            have : u0 = u := Option.some.inj he
            subst this
            simp
        · rw [if_neg hcl]
          dsimp only
          constructor
          · intro hm
            simp only [List.mem_append, List.mem_singleton] at hm
            rcases hm with hm | hm
            · exact absurd hm (by simp)
            · have : u = u0 := by simpa using hm
              subst this
              exact ⟨rfl, hu0, hsc, hamt⟩
          · rintro ⟨he, -, -, -⟩
            have : u0 = u := Option.some.inj he
            subst this
            simp
      · rw [if_neg hcond]
        dsimp only
        constructor
        · intro hm
          simp at hm
        · rintro ⟨he, hne, hc2, hc3⟩
          have : u0 = u := Option.some.inj he
          subst this
          exact absurd ⟨by simp [uidTruthy, hne], hc2, hc3⟩ hcond

/-- Claim C5, witness: on a correctly signed `COMPLETE` notification with
amount 99.00, the first handler performs the subscriber write. -/
theorem itnA_activation_guard_iff_witness :
    Effect.userSet "u1" true (pfMetaA payloadA1 7) ∈
      (itnHandlerA payloadA1 "" stdOracle 7 {}).effects :=
  (itnA_activation_guard_iff payloadA1 "" stdOracle 7 {} "VALID" "u1"
    (by decide) rfl (by decide) rfl rfl).mpr (by decide)

/-- Claim C6, confirmed.  Both ITN handlers respond HTTP 200 with the fixed
body `OK` on every path — accepted, signature mismatch, remote-validation
failure, and any combination of throwing external calls (the oracle ranges
over all outcomes, including every exception the try/catch absorbs). -/
theorem itn_always_acknowledges :
    ∀ (posted : Payload) (passA : String) (passB : Option String)
      (o : ItnOracle) (now : Nat) (st : SrvState),
      (itnHandlerA posted passA o now st).status = 200 ∧
      (itnHandlerA posted passA o now st).body = "OK" ∧
      (itnHandlerB posted passB o now st).status = 200 ∧
      (itnHandlerB posted passB o now st).body = "OK" :=
  fun posted passA passB o now st =>
    ⟨(itnA_ack posted passA o now st).1, (itnA_ack posted passA o now st).2,
     (itnB_ack posted passB o now st).1, (itnB_ack posted passB o now st).2⟩

/-- Claim C7, confirmed.  The signer appends the encoded passphrase as the
last field only when the secret is non-empty after trimming: a
whitespace-only or empty secret yields the same canonical string as no
secret, a non-trivial secret appends `passphrase=<encoded trimmed secret>`
last; on the concrete scenario fields with secret `""` the canonical string
is exactly `merchant_id=X&amount=99.00&item_name=Monthly+Plan` (both in the
imported module and in `serverBU.js`'s builder), and the signature is the MD5
digest of that exact string. -/
theorem passphrase_append_contract :
    (∀ (fields : Fields) (secret : String), jsTrim secret = "" →
        buildPfParamString fields secret = buildPfParamString fields "") ∧
    (∀ (fields : Fields) (secret : String), jsTrim secret ≠ "" →
        buildPfParamString fields secret =
          joinAmp (((canonicalPairs fields).map (fun p => p.1 ++ "=" ++ p.2)) ++
            ["passphrase=" ++ encodeFormComponent (jsTrim secret)])) ∧
    buildPfParamString scenarioFields "" = scenarioCanonical ∧
    buildParamStringBU scenarioFields "" = scenarioCanonical ∧
    generateSignature scenarioFields "" = md5Hex scenarioCanonical ∧
    generateSignatureBU scenarioFields "" = md5Hex scenarioCanonical := by
  refine ⟨?_, ?_, by decide, by decide, ?_, ?_⟩
  · intro fields secret h
    simp [buildPfParamString, mjsAllPairs, passphrasePair, h]
  · intro fields secret h
    have hne : secret ≠ "" := fun he => h (he ▸ jsTrim_empty)
    simp [buildPfParamString, mjsAllPairs, passphrasePair, h, hne]
  · show md5Hex (buildPfParamString scenarioFields "") = md5Hex scenarioCanonical
    exact congrArg md5Hex (by decide)
  · show md5Hex (buildParamStringBU scenarioFields "") = md5Hex scenarioCanonical
    exact congrArg md5Hex (by decide)

/-- Claim C7, witness: the two passphrase rules applied at concrete
secrets. -/
theorem passphrase_append_contract_witness :
    buildPfParamString scenarioFields " " = buildPfParamString scenarioFields "" ∧
    buildPfParamString scenarioFields "pw" =
      joinAmp (((canonicalPairs scenarioFields).map
        (fun p => p.1 ++ "=" ++ p.2)) ++
        ["passphrase=" ++ encodeFormComponent (jsTrim "pw")]) :=
  ⟨passphrase_append_contract.1 scenarioFields " " (by decide),
   passphrase_append_contract.2.1 scenarioFields "pw" (by decide)⟩

/-- Claim C8, counterexample.  The claim says initiation creates a pending
SubscriptionRecord before returning the redirect payload; the first subscribe
handler returns the signed redirect payload (status 200) while performing no
persistence at all — its only effect is computing the signature, and the
state is untouched. -/
theorem subscribeA_returns_payload_without_record :
    (subscribeHandlerA cfgA0 (some "u1") 5 "2025-08-30" {}).status = 200 ∧
    (subscribeHandlerA cfgA0 (some "u1") 5 "2025-08-30" {}).payloadOut.isSome
      = true ∧
    (subscribeHandlerA cfgA0 (some "u1") 5 "2025-08-30" {}).st =
      ({} : SrvState) ∧
    (subscribeHandlerA cfgA0 (some "u1") 5 "2025-08-30" {}).effects =
      [Effect.signed (generateSignature
        (subscribeFieldsA cfgA0 "u1" 5 "2025-08-30") "")] :=
  ⟨rfl, rfl, rfl, rfl⟩

/-- Claim C8, amended.  The second subscribe handler does create the pending
record, with its generated document id as `m_payment_id`, before responding;
on persistence failure it responds 500 with no redirect payload and an
unchanged state — but the signature has already been computed at that point
(the request is signed before the record is persisted).  The first subscribe
handler returns the signed payload without creating any record. -/
theorem subscribe_persistence_contract :
    (∀ (cfg : PfConfigB) (docId uid : String) (now : Nat) (st : SrvState),
        (subscribeHandlerB cfg docId uid true now st).st.subs =
          setAssoc st.subs docId
            ⟨some uid, some "pending", some "monthly", some now, none, none⟩ ∧
        lookupField (subscribeFieldsB cfg docId uid) "m_payment_id" =
          some (JsValue.vStr docId) ∧
        (subscribeHandlerB cfg docId uid true now st).status = 200) ∧
    (∀ (cfg : PfConfigB) (docId uid : String) (now : Nat) (st : SrvState),
        (subscribeHandlerB cfg docId uid false now st).status = 500 ∧
        (subscribeHandlerB cfg docId uid false now st).payloadOut = none ∧
        (subscribeHandlerB cfg docId uid false now st).st = st ∧
        (subscribeHandlerB cfg docId uid false now st).effects =
          [Effect.signed (md5Hex (buildPfParamStringB
            (subscribeFieldsB cfg docId uid) cfg.passphrase))]) ∧
    (∀ (cfgA : PfConfigA) (u : String) (now : Nat) (bd : String)
        (st : SrvState),
        (subscribeHandlerA cfgA (some u) now bd st).st = st ∧
        (subscribeHandlerA cfgA (some u) now bd st).status = 200) := by
  refine ⟨?_, ?_, ?_⟩
  · intro cfg docId uid now st
    exact ⟨rfl, subscribeFieldsB_mpid cfg docId uid, rfl⟩
  · intro cfg docId uid now st
    exact ⟨rfl, rfl, rfl, rfl⟩
  · intro cfgA u now bd st
    exact ⟨rfl, rfl⟩

/-- Claim C9, counterexample.  The claim says fields outside the canonical
order list are appended after the ordered fields in lexicographic order and
never silently dropped; the imported encoder drops them: with a non-empty
`zzz` field present, the canonical string is just `merchant_id=X`. -/
theorem mjs_silently_drops_extra_field :
    buildPfParamString
        [("merchant_id", JsValue.vStr "X"), ("zzz", JsValue.vStr "1")] "" =
      "merchant_id=X" ∧
    lookupField [("merchant_id", JsValue.vStr "X"), ("zzz", JsValue.vStr "1")]
        "zzz" = some (JsValue.vStr "1") :=
  ⟨by decide, by decide⟩

/-- Claim C9, amended.  The imported encoder emits no pair at all for a key
outside the canonical order list (extra fields are silently dropped); the
insertion-order rewrite emits every non-`signature` field with a non-empty
trimmed value, in insertion order — not lexicographic: on the map
`[b, a]` it produces `b=1&a=2`. -/
theorem extra_field_handling :
    (∀ (fields : Fields) (k v : String), ¬ k ∈ PF_FIELD_ORDER →
        ¬ (k, v) ∈ canonicalPairs fields) ∧
    (∀ fields : Fields,
        ((insPairs fields).map Prod.fst).Sublist (fields.map Prod.fst)) ∧
    (∀ (fields : Fields) (k : String) (jv : JsValue),
        (k, jv) ∈ fields → k ≠ "signature" → jv ≠ JsValue.vNull →
        jsTrim jv.toJsString ≠ "" →
        (k, encodeFormComponent (jsTrim jv.toJsString)) ∈ insPairs fields) ∧
    buildPfParamStringIns [("b", JsValue.vStr "1"), ("a", JsValue.vStr "2")] ""
      = "b=1&a=2" := by
  refine ⟨?_, ?_, ?_, by decide⟩
  · intro fields k v hk hm
    exact hk ((canonicalPairs_mem fields k v).1 hm).1
  · intro fields
    exact filterMap_keys_sublist Prod.fst insPair insPair_key fields
  · intro fields k jv hm hsig hnull htrim
    unfold insPairs
    rw [List.mem_filterMap]
    refine ⟨(k, jv), hm, ?_⟩
    cases jv with
    | vNull => exact absurd rfl hnull
    | vStr s => simp [insPair, hsig, htrim]
    | vNum n => simp [insPair, hsig, htrim]

/-- Claim C9, witness: the drop and the insertion-order inclusion at a
concrete field map. -/
theorem extra_field_handling_witness :
    ¬ ("zzz", "1") ∈ canonicalPairs
        [("merchant_id", JsValue.vStr "X"), ("zzz", JsValue.vStr "1")] ∧
    ("zzz", encodeFormComponent (jsTrim (JsValue.vStr "1").toJsString)) ∈
      insPairs [("merchant_id", JsValue.vStr "X"), ("zzz", JsValue.vStr "1")] :=
  ⟨extra_field_handling.1 _ "zzz" "1" (by decide),
   extra_field_handling.2.2.1 _ "zzz" (JsValue.vStr "1") (by decide)
     (by decide) (by decide) (by decide)⟩

/-- Claim C10, confirmed.  None of the repository's canonical builders ever
emits a pair with key `signature`, even when that key is present with a
non-empty value in the input: the imported module's pairs (passphrase pair
included), the insertion-order rewrite's pairs (which filter it explicitly),
and the second server version's local builder pairs. -/
theorem canonical_excludes_signature_field :
    (∀ (fields : Fields) (pass : String) (p : String × String),
        p ∈ mjsAllPairs fields pass → p.1 ≠ "signature") ∧
    (∀ (fields : Fields) (p : String × String),
        p ∈ insPairs fields → p.1 ≠ "signature") ∧
    (∀ (fields : Fields) (p : String × String),
        p ∈ bPairs fields → p.1 ≠ "signature") := by
  refine ⟨?_, ?_, ?_⟩
  · intro fields pass p hp
    unfold mjsAllPairs at hp
    rcases List.mem_append.1 hp with h | h
    · unfold canonicalPairs at h
      rcases List.mem_filterMap.1 h with ⟨a, ha, hfa⟩
      rw [mjsPair_key fields a p hfa]
      intro he
      rw [he] at ha
      exact absurd ha (by decide)
    · unfold passphrasePair at h
      split at h
      · simp at h
        rw [h]
        simp
      · simp at h
  · intro fields p hp
    rcases List.mem_filterMap.1 hp with ⟨a, _, hfa⟩
    exact insPair_not_signature a p hfa
  · intro fields p hp
    unfold bPairs at hp
    rcases List.mem_filterMap.1 hp with ⟨a, ha, hfa⟩
    rw [bPair_key fields a p hfa]
    intro he
    rw [he] at ha
    exact absurd ha (by decide)

/-- Claim C10, witness: a concrete pair of the imported builder, shown to
carry a key other than `signature`. -/
theorem canonical_excludes_signature_field_witness :
    ("merchant_id", "X") ∈ mjsAllPairs scenarioFields "" ∧
    ("merchant_id", "X").1 ≠ "signature" :=
  ⟨by decide,
   canonical_excludes_signature_field.1 scenarioFields "" ("merchant_id", "X")
     (by decide)⟩

end PreachPoint



